import Mathlib

/-!
Verification of the Key-Addressed DOM Text Binder of
`translation-techniques-ts`, a set of DOM-translation snippets.

The repository contains four independent variants:
* `src/translation-data-attributes.ts` — a `Translator` holding a flat
  `translateMap` and translating every element with a `data-translate`
  attribute (namespace `DataAttr` below);
* `src/unnamed/part_000` — a `Translator` holding a language → entry table
  plus an active `language` tag, with `setLanguage` (namespace `MultiLang`);
* `src/translations-proxy.ts` (second part) — a `Translate` rule that
  matches elements by class name and case-insensitive text equality
  (namespace `TextMatch`);
* `src/translations-proxy.ts` (first part) — a `Translator` whose reads go
  through a `Proxy` `get` trap (namespace `ProxyAccess`);
* `src/README.md` additionally shows a locale/`Intl.MessageFormat` variant
  (namespace `LocaleFmt`).

The DOM is modelled as a list of elements in document order; a JS object of
strings is modelled as an association list with first-match lookup;
`console.warn` output is collected into a list of diagnostic strings.
JS truthiness of a string-or-undefined value (`if (translation)`,
`x || fallback`) is `jsTruthy`: `undefined` and `""` are falsy.
-/

set_option autoImplicit false

/-- A DOM element as the binder sees it: the optional `data-translate`
attribute, the class list, and the rendered text (`innerText`/`innerHTML`
are collapsed into a single text field, as the snippets only ever store
plain text). -/
structure Element where
  dataTranslate : Option String
  classes : List String
  text : String
  deriving DecidableEq, Repr

/-- JS object indexing `obj[key]` on a string map: `some v` when the key is
present, `none` (i.e. `undefined`) otherwise. -/
def objLookup {α : Type} (m : List (String × α)) (k : String) : Option α :=
  match m with
  | [] => none
  | (k', v) :: rest => if k' = k then some v else objLookup rest k

/-- JS truthiness of a `string | undefined` value: `undefined` and the empty
string are falsy. -/
def jsTruthy : Option String → Bool
  | some s => s ≠ ""
  | none => false

/-- JS `toLowerCase()`: character-wise lowercasing (the same mapping as
`String.toLower`, written over the character list so that it is
structurally reducible). -/
def jsToLower (s : String) : String :=
  ⟨s.data.map Char.toLower⟩

/-- The diagnostic emitted on a missing key:
`` `Translation not found for key: ${key}` ``. -/
def warnMissing (key : String) : String :=
  "Translation not found for key: " ++ key

/-- The diagnostic of the multi-language variant:
`` `Translation not found for key: ${key} in language: ${language}` ``. -/
def warnMissingLang (key language : String) : String :=
  warnMissing key ++ " in language: " ++ language

namespace DataAttr

/-- The `Translator` of `src/translation-data-attributes.ts`: a flat
`translateMap` from translation keys to translated strings. -/
structure Translator where
  translateMap : List (String × String)
  deriving DecidableEq, Repr

/-- The body of the `forEach` callback in `Translator.translate`, applied to
one element carrying a `data-translate` attribute or not: looks the key up,
overwrites `innerHTML` when the result is truthy, otherwise warns.  Returns
the updated element and the diagnostics it emitted. -/
def translateElem (m : List (String × String)) (e : Element) : Element × List String :=
  match e.dataTranslate with
  | none => (e, [])
  | some key =>
    let translation : Option String := objLookup m key
    if jsTruthy translation then
      ({ e with text := translation.getD "" }, [])
    else
      (e, [warnMissing key])

/-- Method `Translator.translate()`: visits every element with a `data-translate`
attribute in document order; returns the updated document and the emitted
diagnostics in order. -/
def Translator.translate (tr : Translator) (doc : List Element) :
    List Element × List String :=
  (doc.map (fun e => (translateElem tr.translateMap e).1),
   (doc.map (fun e => (translateElem tr.translateMap e).2)).flatten)

/-- The whole page state a `translate()` call can see: the translator's own
fields, the document tree, and the console log. -/
structure PageState where
  tr : Translator
  doc : List Element
  log : List String
  deriving DecidableEq, Repr

/-- Operation `translate()` as a transition on the full page state.  The method body
assigns only `element.innerHTML` and calls `console.warn`; it contains no
assignment to `this.translateMap`. -/
def runTranslate (st : PageState) : PageState :=
  { st with
    doc := (st.tr.translate st.doc).1,
    log := st.log ++ (st.tr.translate st.doc).2 }

end DataAttr

namespace MultiLang

/-- The `Translator` of `src/unnamed/part_000`: an active `language` tag and a
`translations` table mapping language tags to flat key → text entries. -/
structure Translator where
  language : String
  translations : List (String × List (String × String))
  deriving DecidableEq, Repr

/-- The constructor body:
`this.language = language || 'en'; this.translations = translations || {}`.
An absent (`undefined`) or empty-string tag falls back to `"en"`; an absent
table falls back to the empty table.  The table is never consulted here. -/
def Translator.construct (language : Option String)
    (translations : Option (List (String × List (String × String)))) : Translator :=
  { language := if jsTruthy language then language.getD "" else "en",
    translations := translations.getD [] }

/-- The `forEach` body of the multi-language `translate`: resolves
`this.translations[this.language]?.[key]` (optional chaining: a missing
language table yields `undefined`), then overwrites on a truthy result and
warns otherwise, naming both the key and the active language. -/
def translateElem (language : String)
    (translations : List (String × List (String × String))) (e : Element) :
    Element × List String :=
  match e.dataTranslate with
  | none => (e, [])
  | some key =>
    let translation : Option String :=
      match objLookup translations language with
      | some entry => objLookup entry key
      | none => none
    if jsTruthy translation then
      ({ e with text := translation.getD "" }, [])
    else
      (e, [warnMissingLang key language])

/-- Method `Translator.translate()` of the multi-language variant. -/
def Translator.translate (tr : Translator) (doc : List Element) :
    List Element × List String :=
  (doc.map (fun e => (translateElem tr.language tr.translations e).1),
   (doc.map (fun e => (translateElem tr.language tr.translations e).2)).flatten)

/-- Method `Translator.setLanguage(language)`: `this.language = language;` —
a single unconditional field assignment. -/
def Translator.setLanguage (tr : Translator) (language : String) : Translator :=
  { tr with language := language }

/-- Full page state of the multi-language variant. -/
structure PageState where
  tr : Translator
  doc : List Element
  log : List String
  deriving DecidableEq, Repr

/-- Operation `translate()` as a transition on the full page state: the body assigns
only `element.innerHTML` and calls `console.warn`; no `this` field is
assigned. -/
def runTranslate (st : PageState) : PageState :=
  { st with
    doc := (st.tr.translate st.doc).1,
    log := st.log ++ (st.tr.translate st.doc).2 }

/-- Operation `setLanguage(tag)` as a transition on the full page state: the body is
the single assignment `this.language = language` — it queries no element
and writes no element. -/
def runSetLanguage (language : String) (st : PageState) : PageState :=
  { st with tr := st.tr.setLanguage language }

end MultiLang

namespace TextMatch

/-- The `Translate` rule of `src/translations-proxy.ts` (class/text-match variant):
one rule made of a class name, a source text and a destination text. -/
structure Translate where
  translateItem : String
  translateFor : String
  translateTo : String
  deriving DecidableEq, Repr

/-- The loop body of `Translate.translate` applied to one selected element:
if `innerText.toLowerCase() === translateFor.toLowerCase()`, the text is
replaced by `translateTo`. -/
def applyRule (t : Translate) (e : Element) : Element :=
  if jsToLower e.text = jsToLower t.translateFor then
    { e with text := t.translateTo }
  else
    e

/-- Method `Translate.translate()`: guarded by the truthiness of the class name,
selects every element of class `translateItem`
(`querySelectorAll` with a class selector) and applies the rule to each;
all other elements are untouched. -/
def Translate.translate (t : Translate) (doc : List Element) : List Element :=
  if t.translateItem ≠ "" then
    doc.map (fun e => if e.classes.contains t.translateItem then applyRule t e else e)
  else
    doc

/-- The `translateList.forEach` driver: builds one `Translate` per record
and runs its `translate()`, in list order. -/
def applyAll (rules : List Translate) (doc : List Element) : List Element :=
  rules.foldl (fun d r => r.translate d) doc

end TextMatch

namespace ProxyAccess

/-- The `Translator` of `src/translations-proxy.ts` (proxy-accessor variant):
the wrapped flat translations map. -/
structure Translator where
  translations : List (String × String)
  deriving DecidableEq, Repr

/-- The `get` trap installed by the constructor: every property read on the
returned proxy evaluates
`target.translations[prop] || ` `` `Translation not found for key: ${prop}` ``.
It consults only the `translations` map and touches no document tree. -/
def Translator.get (tr : Translator) (prop : String) : String :=
  let value : Option String := objLookup tr.translations prop
  if jsTruthy value then value.getD "" else warnMissing prop

end ProxyAccess

namespace LocaleFmt

/-- The `Translator` of the locale variant shown in `src/README.md`: an active
`locale` tag, the locale table, and the formatter built over the active
locale's entries. -/
structure Translator where
  locale : String
  translations : List (String × List (String × String))
  formatterEntries : List (String × String)
  deriving DecidableEq, Repr

/-- The locale constructor body:
`this.locale = locale || 'en-US'; this.translations = translations || {};`
then `this.formatter = new Intl.MessageFormat(this.translations[this.locale] || {}, this.locale)`.
The formatter is modelled by the entry list it is constructed over
(the spec's formatter contract is satisfied by a flat-map lookup). -/
def Translator.construct (locale : Option String)
    (translations : Option (List (String × List (String × String)))) : Translator :=
  let l := if jsTruthy locale then locale.getD "" else "en-US"
  let t := translations.getD []
  { locale := l,
    translations := t,
    formatterEntries := (objLookup t l).getD [] }

end LocaleFmt

/-!
## Helper lemmas
-/

namespace DataAttr

/-- Element-level success case: a present, non-empty translation is written
into the element and no diagnostic is emitted. -/
theorem translateElemFlat_found (m : List (String × String)) (e : Element) (k v : String)
    (he : e.dataTranslate = some k) (hk : objLookup m k = some v) (hv : v ≠ "") :
    translateElem m e = ({ e with text := v }, []) := by
  unfold translateElem
  rw [he]
  simp [hk, jsTruthy, hv]

/-- Element-level missing case: an absent key leaves the element untouched
and emits exactly the one missing-key diagnostic. -/
theorem translateElemFlat_missing (m : List (String × String)) (e : Element) (k : String)
    (he : e.dataTranslate = some k) (hk : objLookup m k = none) :
    translateElem m e = (e, [warnMissing k]) := by
  unfold translateElem
  rw [he]
  simp [hk, jsTruthy]

/-- Position `i` of the translated document is the per-element translation
of position `i` of the input document. -/
theorem translateFlat_get (tr : Translator) (doc : List Element) (i : Nat)
    (hi : i < doc.length) :
    ∃ h : i < (tr.translate doc).1.length,
      (tr.translate doc).1.get ⟨i, h⟩ = (translateElem tr.translateMap (doc.get ⟨i, hi⟩)).1 := by
  refine ⟨by simpa [Translator.translate] using hi, ?_⟩
  simp [Translator.translate]

end DataAttr

namespace MultiLang

/-- Element-level success case for the multi-language variant. -/
theorem translateElemML_found (language : String)
    (tbl : List (String × List (String × String))) (entry : List (String × String))
    (e : Element) (k v : String) (he : e.dataTranslate = some k)
    (ht : objLookup tbl language = some entry) (hk : objLookup entry k = some v)
    (hv : v ≠ "") :
    translateElem language tbl e = ({ e with text := v }, []) := by
  unfold translateElem
  rw [he]
  simp [ht, hk, jsTruthy, hv]

/-- Element-level missing case for the multi-language variant: when the
active entry (the table under the active language, or empty when that
language is absent) has no value for the key, the element is untouched and
exactly one diagnostic naming the key and the language is emitted. -/
theorem translateElemML_missing (language : String)
    (tbl : List (String × List (String × String))) (e : Element) (k : String)
    (he : e.dataTranslate = some k)
    (hk : objLookup ((objLookup tbl language).getD []) k = none) :
    translateElem language tbl e = (e, [warnMissingLang k language]) := by
  unfold translateElem
  rw [he]
  cases ht : objLookup tbl language with
  | none => simp [jsTruthy]
  | some entry =>
    rw [ht] at hk
    simp only [Option.getD_some] at hk
    simp [hk, jsTruthy]

/-- Position `i` of the translated document is the per-element translation
of position `i` of the input document (multi-language variant). -/
theorem translateML_get (tr : Translator) (doc : List Element) (i : Nat)
    (hi : i < doc.length) :
    ∃ h : i < (tr.translate doc).1.length,
      (tr.translate doc).1.get ⟨i, h⟩ =
        (translateElem tr.language tr.translations (doc.get ⟨i, hi⟩)).1 := by
  refine ⟨by simpa [Translator.translate] using hi, ?_⟩
  simp [Translator.translate]

end MultiLang

namespace TextMatch

/-- Rule application never touches the class list. -/
theorem applyRule_classes (t : Translate) (e : Element) :
    (applyRule t e).classes = e.classes := by
  unfold applyRule
  split <;> rfl

/-- Applying the same rule twice to one element is the same as applying it
once: a replaced text either still matches (and is replaced by the same
destination again) or no longer matches (and is kept). -/
theorem applyRule_idem (t : Translate) (e : Element) :
    applyRule t (applyRule t e) = applyRule t e := by
  unfold applyRule
  by_cases h : jsToLower e.text = jsToLower t.translateFor
  · by_cases h2 : jsToLower t.translateTo = jsToLower t.translateFor <;> simp [h, h2]
  · simp [h]

/-- Method-level idempotence of one rule's `translate()` on the document. -/
theorem translate_idem (t : Translate) (doc : List Element) :
    t.translate (t.translate doc) = t.translate doc := by
  unfold Translate.translate
  by_cases hitem : t.translateItem = ""
  · simp [hitem]
  · simp only [ne_eq, hitem, not_false_eq_true, if_true, List.map_map]
    refine List.map_congr_left ?_
    intro e _
    by_cases hc : t.translateItem ∈ e.classes
    · simp [Function.comp, hc, applyRule_classes, applyRule_idem]
    · simp [Function.comp, hc]

end TextMatch

/-- Element-level text idempotence of the flat-map variant: the element
produced by one per-element pass is a fixed point of the next pass. -/
theorem DataAttr.translateElemFlat_fst_idem (m : List (String × String)) (e : Element) :
    (DataAttr.translateElem m (DataAttr.translateElem m e).1).1 =
      (DataAttr.translateElem m e).1 := by
  unfold DataAttr.translateElem
  cases hda : e.dataTranslate with
  | none => simp [hda]
  | some key =>
    cases hl : objLookup m key with
    | none => simp [hda, hl, jsTruthy]
    | some v =>
      by_cases hv : v = ""
      · simp [hda, hl, jsTruthy, hv]
      · simp [hda, hl, jsTruthy, hv]

/-- Element-level text idempotence of the multi-language variant. -/
theorem MultiLang.translateElemML_fst_idem (language : String)
    (tbl : List (String × List (String × String))) (e : Element) :
    (MultiLang.translateElem language tbl (MultiLang.translateElem language tbl e).1).1 =
      (MultiLang.translateElem language tbl e).1 := by
  unfold MultiLang.translateElem
  cases hda : e.dataTranslate with
  | none => simp [hda]
  | some key =>
    cases ht : objLookup tbl language with
    | none => simp [hda, ht, jsTruthy]
    | some entry =>
      cases hl : objLookup entry key with
      | none => simp [hda, ht, hl, jsTruthy]
      | some v =>
        by_cases hv : v = ""
        · simp [hda, ht, hl, jsTruthy, hv]
        · simp [hda, ht, hl, jsTruthy, hv]

/-!
## Theorems settling the claims
-/

/-- C1: the claim as stated is false on the code.  With entry `{k: ""}` —
key `"k"` present, value the empty string — a `translate()` pass leaves the
element's text at its old value `"old"` instead of the looked-up `""`, and
emits a diagnostic for it, because `if (translation)` treats the empty
string as falsy.  The conjuncts exhibit the lookup success, the actual
behaviour, and the negation of the claimed behaviour. -/
theorem C1_counterexample :
    objLookup [("k", "")] "k" = some "" ∧
    ((DataAttr.Translator.mk [("k", "")]).translate [⟨some "k", [], "old"⟩]).1 =
      [⟨some "k", [], "old"⟩] ∧
    ((DataAttr.Translator.mk [("k", "")]).translate [⟨some "k", [], "old"⟩]).2 =
      [warnMissing "k"] ∧
    ¬ (((DataAttr.Translator.mk [("k", "")]).translate [⟨some "k", [], "old"⟩]).1 =
         [⟨some "k", [], ""⟩] ∧
       ((DataAttr.Translator.mk [("k", "")]).translate [⟨some "k", [], "old"⟩]).2 = []) := by
  decide

/-- C1 (amended): for every translation entry `E` and key `k` present in
`E` with a non-empty value `E[k]`, after a single `translate()` call every
matched element whose resolved key is `k` has rendered text `E[k]` and
emits no diagnostic — in the flat-map variant and in the multi-language
variant alike.  (When `E[k]` is the empty string the element is instead
left unchanged with a diagnostic, see the counterexample.) -/
theorem C1_amended :
    (∀ (m : List (String × String)) (doc : List Element) (k v : String)
       (i : Nat) (hi : i < doc.length),
       objLookup m k = some v → v ≠ "" → (doc.get ⟨i, hi⟩).dataTranslate = some k →
       DataAttr.translateElem m (doc.get ⟨i, hi⟩) =
         ({ doc.get ⟨i, hi⟩ with text := v }, []) ∧
       ∃ h : i < ((DataAttr.Translator.mk m).translate doc).1.length,
         (((DataAttr.Translator.mk m).translate doc).1.get ⟨i, h⟩).text = v) ∧
    (∀ (language : String) (tbl : List (String × List (String × String)))
       (entry : List (String × String)) (doc : List Element) (k v : String)
       (i : Nat) (hi : i < doc.length),
       objLookup tbl language = some entry → objLookup entry k = some v → v ≠ "" →
       (doc.get ⟨i, hi⟩).dataTranslate = some k →
       MultiLang.translateElem language tbl (doc.get ⟨i, hi⟩) =
         ({ doc.get ⟨i, hi⟩ with text := v }, []) ∧
       ∃ h : i < ((MultiLang.Translator.mk language tbl).translate doc).1.length,
         (((MultiLang.Translator.mk language tbl).translate doc).1.get ⟨i, h⟩).text = v) := by
  constructor
  · intro m doc k v i hi hk hv he
    have helem := DataAttr.translateElemFlat_found m (doc.get ⟨i, hi⟩) k v he hk hv
    obtain ⟨h, hget⟩ := DataAttr.translateFlat_get (DataAttr.Translator.mk m) doc i hi
    exact ⟨helem, h, by rw [hget, helem]⟩
  · intro language tbl entry doc k v i hi ht hk hv he
    have helem := MultiLang.translateElemML_found language tbl entry (doc.get ⟨i, hi⟩) k v he ht hk hv
    obtain ⟨h, hget⟩ := MultiLang.translateML_get (MultiLang.Translator.mk language tbl) doc i hi
    exact ⟨helem, h, by rw [hget, helem]⟩

/-- C1 (amended) at a concrete input: entry `{hello: "Привіт"}`, one
element keyed `hello` with old text `"x"`. -/
theorem C1_amended_witness :
    DataAttr.translateElem [("hello", "Привіт")] ⟨some "hello", [], "x"⟩ =
      ({ dataTranslate := some "hello", classes := [], text := "Привіт" }, []) ∧
    MultiLang.translateElem "uk" [("uk", [("hello", "Привіт")])] ⟨some "hello", [], "x"⟩ =
      ({ dataTranslate := some "hello", classes := [], text := "Привіт" }, []) := by
  refine ⟨(C1_amended.1 [("hello", "Привіт")] [⟨some "hello", [], "x"⟩] "hello" "Привіт"
      0 (by decide) (by decide) (by decide) (by decide)).1, ?_⟩
  exact (C1_amended.2 "uk" [("uk", [("hello", "Привіт")])] [("hello", "Привіт")]
      [⟨some "hello", [], "x"⟩] "hello" "Привіт" 0 (by decide) (by decide) (by decide)
      (by decide) (by decide)).1

/-- C2: the claim as stated is false on the code.  A supplied tag that is
non-empty but not a key of the table (here `"fr"` against a table with the
single language `"en"`) is kept as-is by the constructor — `language ||
'en'` only replaces falsy tags — so the binder does not resolve as if the
default `"en"` had been supplied: key `"hello"` is left untranslated
instead of resolving to `"Hi"`. -/
theorem C2_counterexample :
    (MultiLang.Translator.construct (some "fr") (some [("en", [("hello", "Hi")])])).language =
      "fr" ∧
    ((MultiLang.Translator.construct (some "fr")
        (some [("en", [("hello", "Hi")])])).translate [⟨some "hello", [], "x"⟩]).1 =
      [⟨some "hello", [], "x"⟩] ∧
    ¬ ((MultiLang.Translator.construct (some "fr")
        (some [("en", [("hello", "Hi")])])).translate [⟨some "hello", [], "x"⟩]).1 =
      [⟨some "hello", [], "Hi"⟩] := by
  decide

/-- C2 (amended): only an absent tag (`undefined` or the empty string)
falls back to the configured default — `"en"` for the multi-language
variant, `"en-US"` for the locale variant; a non-empty tag is kept
unchanged whether or not the table contains it.  Constructing with `""` or
`undefined` and table `{en: {hello: "Hi"}}` resolves key `"hello"` to
`"Hi"` in the multi-language variant. -/
theorem C2_amended :
    (∀ tbl, (MultiLang.Translator.construct none tbl).language = "en" ∧
            (MultiLang.Translator.construct (some "") tbl).language = "en") ∧
    (∀ tbl, (LocaleFmt.Translator.construct none tbl).locale = "en-US" ∧
            (LocaleFmt.Translator.construct (some "") tbl).locale = "en-US") ∧
    (∀ (l : String) tbl, l ≠ "" →
       (MultiLang.Translator.construct (some l) tbl).language = l) ∧
    ((MultiLang.Translator.construct (some "")
        (some [("en", [("hello", "Hi")])])).translate [⟨some "hello", [], "x"⟩]).1 =
      [⟨some "hello", [], "Hi"⟩] ∧
    ((MultiLang.Translator.construct none
        (some [("en", [("hello", "Hi")])])).translate [⟨some "hello", [], "x"⟩]).1 =
      [⟨some "hello", [], "Hi"⟩] := by
  refine ⟨fun tbl => ⟨rfl, rfl⟩, fun tbl => ⟨rfl, rfl⟩, ?_, by decide, by decide⟩
  intro l tbl hl
  simp [MultiLang.Translator.construct, jsTruthy, hl]

/-- C2 (amended) at a concrete input: the kept-tag clause applied to the
non-empty tag `"fr"`. -/
theorem C2_amended_witness :
    (MultiLang.Translator.construct (some "fr") (some [("en", [("hello", "Hi")])])).language =
      "fr" :=
  C2_amended.2.2.1 "fr" (some [("en", [("hello", "Hi")])]) (by decide)

/-- C3: for every matched element whose key is absent from the active
translation entry, `translate()` leaves that element's text unchanged and
emits exactly one diagnostic naming the key (and, in the multi-language
variant, the active language), while every other element of the document
is still processed in the same pass (the output document is the pointwise
per-element translation of the whole input document). -/
theorem C3_missing_key :
    (∀ (m : List (String × String)) (doc : List Element) (k : String)
       (i : Nat) (hi : i < doc.length),
       (doc.get ⟨i, hi⟩).dataTranslate = some k → objLookup m k = none →
       DataAttr.translateElem m (doc.get ⟨i, hi⟩) = (doc.get ⟨i, hi⟩, [warnMissing k]) ∧
       ((DataAttr.Translator.mk m).translate doc).1 =
         doc.map (fun e => (DataAttr.translateElem m e).1) ∧
       ∃ h : i < ((DataAttr.Translator.mk m).translate doc).1.length,
         ((DataAttr.Translator.mk m).translate doc).1.get ⟨i, h⟩ = doc.get ⟨i, hi⟩) ∧
    (∀ (language : String) (tbl : List (String × List (String × String)))
       (doc : List Element) (k : String) (i : Nat) (hi : i < doc.length),
       (doc.get ⟨i, hi⟩).dataTranslate = some k →
       objLookup ((objLookup tbl language).getD []) k = none →
       MultiLang.translateElem language tbl (doc.get ⟨i, hi⟩) =
         (doc.get ⟨i, hi⟩, [warnMissingLang k language]) ∧
       ((MultiLang.Translator.mk language tbl).translate doc).1 =
         doc.map (fun e => (MultiLang.translateElem language tbl e).1) ∧
       ∃ h : i < ((MultiLang.Translator.mk language tbl).translate doc).1.length,
         ((MultiLang.Translator.mk language tbl).translate doc).1.get ⟨i, h⟩ =
           doc.get ⟨i, hi⟩) := by
  constructor
  · intro m doc k i hi he hk
    have helem := DataAttr.translateElemFlat_missing m (doc.get ⟨i, hi⟩) k he hk
    obtain ⟨h, hget⟩ := DataAttr.translateFlat_get (DataAttr.Translator.mk m) doc i hi
    exact ⟨helem, rfl, h, by rw [hget, helem]⟩
  · intro language tbl doc k i hi he hk
    have helem := MultiLang.translateElemML_missing language tbl (doc.get ⟨i, hi⟩) k he hk
    obtain ⟨h, hget⟩ := MultiLang.translateML_get (MultiLang.Translator.mk language tbl) doc i hi
    exact ⟨helem, rfl, h, by rw [hget, helem]⟩

/-- C3 at a concrete input: entry `{hello: "Привіт"}` with an element keyed
`bye`, and language `"uk"` with the same element. -/
theorem C3_missing_key_witness :
    DataAttr.translateElem [("hello", "Привіт")] ⟨some "bye", [], "old"⟩ =
      ({ dataTranslate := some "bye", classes := [], text := "old" }, [warnMissing "bye"]) ∧
    MultiLang.translateElem "uk" [("uk", [("hello", "Привіт")])] ⟨some "bye", [], "old"⟩ =
      ({ dataTranslate := some "bye", classes := [], text := "old" },
       [warnMissingLang "bye" "uk"]) := by
  refine ⟨(C3_missing_key.1 [("hello", "Привіт")] [⟨some "bye", [], "old"⟩] "bye"
      0 (by decide) (by decide) (by decide)).1, ?_⟩
  exact (C3_missing_key.2 "uk" [("uk", [("hello", "Привіт")])] [⟨some "bye", [], "old"⟩]
      "bye" 0 (by decide) (by decide) (by decide)).1


/-- C4: `translate()` is idempotent on rendered text in every variant —
running a second pass with unchanged binder state leaves the document
exactly as the first pass left it.  This includes the class/text-match
variant, where the first pass rewrites the very text the match reads:
a rewritten element either no longer matches (and is kept) or its
destination text still matches and is rewritten to itself. -/
theorem C4_idempotent :
    (∀ (tr : DataAttr.Translator) (doc : List Element),
       (tr.translate (tr.translate doc).1).1 = (tr.translate doc).1) ∧
    (∀ (tr : MultiLang.Translator) (doc : List Element),
       (tr.translate (tr.translate doc).1).1 = (tr.translate doc).1) ∧
    (∀ (t : TextMatch.Translate) (doc : List Element),
       t.translate (t.translate doc) = t.translate doc) := by
  refine ⟨?_, ?_, fun t doc => TextMatch.translate_idem t doc⟩
  · intro tr doc
    simp only [DataAttr.Translator.translate, List.map_map]
    exact List.map_congr_left
      (fun e _ => DataAttr.translateElemFlat_fst_idem tr.translateMap e)
  · intro tr doc
    simp only [MultiLang.Translator.translate, List.map_map]
    exact List.map_congr_left
      (fun e _ => MultiLang.translateElemML_fst_idem tr.language tr.translations e)

/-- C5: the two-rule menu scenario of the class/text-match variant.
Both elements carry class `menu-item`; applying the rule
`("menu-item", "Pork Ribs", "Свинині ребра")` and then the rule
`("menu-item", "Steak", "Стейк")` leaves the first element's text equal to
`"Свинині ребра"` and the second's equal to `"Стейк"` (each rule matches by
case-insensitive equality against the text at the time it runs). -/
theorem C5_menu_scenario :
    TextMatch.Translate.translate ⟨"menu-item", "Steak", "Стейк"⟩
      (TextMatch.Translate.translate ⟨"menu-item", "Pork Ribs", "Свинині ребра"⟩
        [⟨none, ["menu-item"], "Pork Ribs"⟩, ⟨none, ["menu-item"], "Steak"⟩]) =
      [⟨none, ["menu-item"], "Свинині ребра"⟩, ⟨none, ["menu-item"], "Стейк"⟩] ∧
    TextMatch.applyAll
      [⟨"menu-item", "Pork Ribs", "Свинині ребра"⟩, ⟨"menu-item", "Steak", "Стейк"⟩]
      [⟨none, ["menu-item"], "Pork Ribs"⟩, ⟨none, ["menu-item"], "Steak"⟩] =
      [⟨none, ["menu-item"], "Свинині ребра"⟩, ⟨none, ["menu-item"], "Стейк"⟩] := by
  decide

/-- C6: when the active language tag has no table in the `LanguageTable`,
a `translate()` pass returns the document unchanged and emits exactly one
missing-key diagnostic per matched element — one for each element carrying
the marker attribute, in document order, naming its key and the active
language, exactly as per-key misses do.  (In the embedding `translate` is
a total function into a pair, mirroring that the method body has no
throwing operation: it never raises a propagating failure.) -/
theorem C6_missing_language (tr : MultiLang.Translator) (doc : List Element)
    (h : objLookup tr.translations tr.language = none) :
    (tr.translate doc).1 = doc ∧
    (tr.translate doc).2 =
      (doc.filterMap Element.dataTranslate).map
        (fun k => warnMissingLang k tr.language) := by
  constructor
  · have : ∀ e, (MultiLang.translateElem tr.language tr.translations e).1 = e := by
      intro e
      unfold MultiLang.translateElem
      cases hda : e.dataTranslate <;> simp [hda, h, jsTruthy]
    simp [MultiLang.Translator.translate, this]
  · induction doc with
    | nil => rfl
    | cons e rest ih =>
      have hstep : (MultiLang.translateElem tr.language tr.translations e).2 =
          (e.dataTranslate.map (fun k => warnMissingLang k tr.language)).toList := by
        unfold MultiLang.translateElem
        cases hda : e.dataTranslate <;> simp [hda, h, jsTruthy]
      simp only [MultiLang.Translator.translate, List.map_cons, List.flatten_cons,
        List.filterMap_cons] at ih ⊢
      rw [hstep, ih]
      cases hda : e.dataTranslate <;> simp [hda]

/-- C6 at a concrete input: active language `"fr"`, table containing only
`"en"`, two matched elements and one unmarked element. -/
theorem C6_missing_language_witness :
    ((MultiLang.Translator.mk "fr" [("en", [("hello", "Hi")])]).translate
        [⟨some "hello", [], "x"⟩, ⟨none, [], "y"⟩, ⟨some "bye", [], "z"⟩]).1 =
      [⟨some "hello", [], "x"⟩, ⟨none, [], "y"⟩, ⟨some "bye", [], "z"⟩] ∧
    ((MultiLang.Translator.mk "fr" [("en", [("hello", "Hi")])]).translate
        [⟨some "hello", [], "x"⟩, ⟨none, [], "y"⟩, ⟨some "bye", [], "z"⟩]).2 =
      [warnMissingLang "hello" "fr", warnMissingLang "bye" "fr"] := by
  have h := C6_missing_language (MultiLang.Translator.mk "fr" [("en", [("hello", "Hi")])])
    [⟨some "hello", [], "x"⟩, ⟨none, [], "y"⟩, ⟨some "bye", [], "z"⟩] (by decide)
  exact ⟨h.1, by rw [h.2]; rfl⟩

/-- C7: `setLanguage(t)` unconditionally stores `t` as the active language
for every string `t` (validated against nothing), leaves the translations
table identical, touches neither the document tree nor the console log,
and its effect is only observable through the next `translate()` call,
which behaves exactly as a binder constructed over the new tag and the old
table. -/
theorem C7_setLanguage (tr : MultiLang.Translator) (t : String)
    (st : MultiLang.PageState) :
    (tr.setLanguage t).language = t ∧
    (tr.setLanguage t).translations = tr.translations ∧
    (MultiLang.runSetLanguage t st).doc = st.doc ∧
    (MultiLang.runSetLanguage t st).log = st.log ∧
    (MultiLang.runSetLanguage t st).tr = st.tr.setLanguage t ∧
    (tr.setLanguage t).translate =
      (MultiLang.Translator.mk t tr.translations).translate :=
  ⟨rfl, rfl, rfl, rfl, rfl, rfl⟩

/-- C8: proxy-accessor variant over `{hello: "Привіт"}` — a property-style
read of `"hello"` returns `"Привіт"`, and a read of the absent key `"bye"`
returns the fallback string that embeds the literal key read.  The `get`
trap is a pure function of the translations map and the property name:
it takes no document tree, so the read performs no DOM traversal. -/
theorem C8_proxy_reads :
    ProxyAccess.Translator.get ⟨[("hello", "Привіт")]⟩ "hello" = "Привіт" ∧
    ProxyAccess.Translator.get ⟨[("hello", "Привіт")]⟩ "bye" =
      "Translation not found for key: " ++ "bye" := by
  decide

/-- C9: `translate()` preserves the binder state in every variant — the
translation map (or language table) and the active language after a pass
on the full page state are identical to their values before it; only
`setLanguage` replaces the active language, and even it leaves the table
alone. -/
theorem C9_state_preserved :
    (∀ st : DataAttr.PageState, (DataAttr.runTranslate st).tr = st.tr) ∧
    (∀ st : MultiLang.PageState,
       (MultiLang.runTranslate st).tr.language = st.tr.language ∧
       (MultiLang.runTranslate st).tr.translations = st.tr.translations) ∧
    (∀ (st : MultiLang.PageState) (t : String),
       (MultiLang.runSetLanguage t st).tr.language = t ∧
       (MultiLang.runSetLanguage t st).tr.translations = st.tr.translations) :=
  ⟨fun _ => rfl, fun _ => ⟨rfl, rfl⟩, fun _ _ => ⟨rfl, rfl⟩⟩

/-- C10: every read on the proxy goes through the `get` trap and is
resolved against the translations map alone — it returns the stored value
when that value is truthy and `"Translation not found for key: "` followed
by the property name otherwise.  A key stored with a falsy value (the
empty string) is indistinguishable from an absent key: two maps that agree
everywhere except on such a key produce identical reads at every property.
The instance's own members are not reachable: reading the property
`"translations"` against a map without that key yields the fallback
string, not the underlying field. -/
theorem C10_get_trap :
    (∀ (tr : ProxyAccess.Translator) (p v : String),
       objLookup tr.translations p = some v → v ≠ "" → tr.get p = v) ∧
    (∀ (tr : ProxyAccess.Translator) (p : String),
       objLookup tr.translations p = none →
       tr.get p = "Translation not found for key: " ++ p) ∧
    (∀ (tr : ProxyAccess.Translator) (p : String),
       objLookup tr.translations p = some "" →
       tr.get p = "Translation not found for key: " ++ p) ∧
    (∀ (m m' : List (String × String)) (p : String),
       objLookup m p = some "" → objLookup m' p = none →
       (∀ q, q ≠ p → objLookup m q = objLookup m' q) →
       ∀ q, ProxyAccess.Translator.get ⟨m⟩ q = ProxyAccess.Translator.get ⟨m'⟩ q) ∧
    ProxyAccess.Translator.get ⟨[("hello", "Привіт")]⟩ "translations" =
      "Translation not found for key: " ++ "translations" := by
  refine ⟨?_, ?_, ?_, ?_, by decide⟩
  · intro tr p v hp hv
    simp [ProxyAccess.Translator.get, hp, jsTruthy, hv]
  · intro tr p hp
    simp [ProxyAccess.Translator.get, hp, jsTruthy, warnMissing]
  · intro tr p hp
    simp [ProxyAccess.Translator.get, hp, jsTruthy, warnMissing]
  · intro m m' p hm hm' hagree q
    by_cases hq : q = p
    · subst hq
      simp [ProxyAccess.Translator.get, hm, hm', jsTruthy]
    · simp [ProxyAccess.Translator.get, hagree q hq]

/-- C10 at a concrete input: the truthy-read clause applied to
`{hello: "Привіт"}` at key `"hello"`, and the indistinguishability clause
applied to the maps `{k: ""}` and `{}` at every one of the keys `"k"` and
`"other"`. -/
theorem C10_get_trap_witness :
    ProxyAccess.Translator.get ⟨[("hello", "Привіт")]⟩ "hello" = "Привіт" ∧
    ProxyAccess.Translator.get ⟨[("k", "")]⟩ "k" = ProxyAccess.Translator.get ⟨[]⟩ "k" ∧
    ProxyAccess.Translator.get ⟨[("k", "")]⟩ "other" =
      ProxyAccess.Translator.get ⟨[]⟩ "other" := by
  refine ⟨C10_get_trap.1 ⟨[("hello", "Привіт")]⟩ "hello" "Привіт" (by decide) (by decide),
    C10_get_trap.2.2.2.1 [("k", "")] [] "k" (by decide) (by decide) ?_ "k",
    C10_get_trap.2.2.2.1 [("k", "")] [] "k" (by decide) (by decide) ?_ "other"⟩
  all_goals
    intro q hq
    have hq' : ¬ ("k" = q) := fun h => hq (Eq.symm h)
    simp [objLookup, hq']
